import Mathlib

/-!
Shallow embedding of `paddle/platform/enforce.h` (PaddlePaddle runtime
assertion / error-reporting header) and verification of its specification.

Modelling conventions:
* C++ exceptions are values of the inductive `CppExc`.  `stdExc` stands for a
  `std::runtime_error`-like exception carrying its `what()` string;
  `systemError` for a `thrust::system_error` (which derives from
  `std::runtime_error`) carrying an error code and the caller-supplied text;
  `enforceNotMet` for a propagating `EnforceNotMet`; `nonStd` for an exception
  that does NOT derive from `std::exception` (e.g. `throw 42;`).
* Fallible C++ code is embedded as `Except CppExc _`.
* `paddle::string::Sprintf` is an external collaborator (a pure formatter);
  caller-supplied format strings and arguments are modelled by their already
  rendered result.  The concrete `"%s"`-only format used by the comparison
  macro is rendered faithfully as string concatenation.
* The stack walker `backtrace` is modelled by its result: the current thread's
  symbolic frames, innermost first, of which it captures at most `limit`.
* C++ machine integers are modelled as `Int` together with a `CType` tag
  recording width and signedness; integral conversion wraps two's-complement.
-/

namespace Paddle

/-- A C++ exception in flight.  `nonStd` is an exception not derived from
`std::exception`. -/
inductive CppExc where
  | stdExc (w : String)
  | systemError (code : Nat) (w : String)
  | enforceNotMet (err : String)
  | nonStd (payload : Nat)
deriving DecidableEq

/-- Whether a `catch (const std::exception&)` handler matches this exception.
`EnforceNotMet` and `thrust::system_error` both derive from `std::exception`. -/
def CppExc.isStdException : CppExc → Bool
  | .nonStd _ => false
  | _ => true

/-- `isEnforceNotMet`: discriminates the wrapper exception type from all
others. -/
def CppExc.isEnforceNotMet : CppExc → Bool
  | .enforceNotMet _ => true
  | _ => false

/-- The `what()` of a std-derived exception.  (For `systemError` the external
thrust library would append the category's description of the code; that
suffix lives outside this repository and is not inspected by any claim, so the
stored caller text stands for the description.) -/
def CppExc.what : CppExc → String
  | .stdExc w => w
  | .systemError _ w => w
  | .enforceNotMet e => e
  | .nonStd _ => ""

/-- `static constexpr int TRACE_STACK_LIMIT = 100;` -/
def TRACE_STACK_LIMIT : Nat := 100

/-- `backtrace(call_stack, limit)`: captures at most `limit` frames of the
current thread's stack (`stack`, innermost first). -/
def backtrace (stack : List String) (limit : Nat) : List String :=
  stack.take limit

/-- `EnforceNotMet` stores its eagerly rendered message in `err_str_`. -/
structure EnforceNotMet where
  err_str_ : String
deriving DecidableEq

/-- The message rendered by the `EnforceNotMet` constructor:
`Sprintf("%s at [%s:%d]", what, f, l) << endl`, then the header
`"Call Stacks: " << endl`, then one line per captured frame. -/
def renderErrStr (w f : String) (l : Nat) (frames : List String) : String :=
  w ++ " at [" ++ f ++ ":" ++ toString l ++ "]\n" ++ "Call Stacks: \n" ++
    String.join (frames.map (fun s => s ++ "\n"))

/-- The `EnforceNotMet(std::exception_ptr e, const char* f, int l)` constructor
body: it rethrows `e` inside a `try` whose only handler is
`catch (const std::exception& exp)`.  A std-derived exception is caught and
its description rendered into `err_str_`; any other exception propagates out
of the constructor (there is no `catch (...)`), modelled as `.error e`. -/
def EnforceNotMet.construct (e : CppExc) (f : String) (l : Nat)
    (stack : List String) : Except CppExc EnforceNotMet :=
  if e.isStdException then
    .ok ⟨renderErrStr e.what f l (backtrace stack TRACE_STACK_LIMIT)⟩
  else
    .error e

/-- `const char* what() const noexcept { return err_str_.c_str(); }` -/
def EnforceNotMet.what (en : EnforceNotMet) : String := en.err_str_

/-- `throw_on_error(int stat, const Args&... args)`: throws
`std::runtime_error(Sprintf(args...))` iff `!(stat)`, i.e. iff `stat == 0`.
`msg` is the rendered `Sprintf(args...)`. -/
def throw_on_error_int (stat : Int) (msg : String) : Except CppExc Unit :=
  if stat = 0 then .error (.stdExc msg) else .ok ()

/-- Single-argument overload `throw_on_error(T e)`: forwards with an empty
extra message. -/
def throw_on_error_int1 (stat : Int) : Except CppExc Unit :=
  throw_on_error_int stat ""

/-- `PADDLE_ENFORCE(...)`: runs `throw_on_error(__VA_ARGS__)` (modelled by its
outcome `body`) inside a `try`; `catch (...)` wraps the current exception as
`EnforceNotMet(f, l)` and throws that.  If the `EnforceNotMet` constructor
itself exits with an exception, that exception is what escapes the site. -/
def PADDLE_ENFORCE (body : Except CppExc Unit) (f : String) (l : Nat)
    (stack : List String) : Except CppExc Unit :=
  match body with
  | .ok _ => .ok ()
  | .error e =>
    match EnforceNotMet.construct e f l stack with
    | .ok en => .error (.enforceNotMet en.err_str_)
    | .error e2 => .error e2

/-! ### cuBLAS status dispatch (external enum values from `cublas_v2.h`) -/

def CUBLAS_STATUS_SUCCESS : Nat := 0
def CUBLAS_STATUS_NOT_INITIALIZED : Nat := 1
def CUBLAS_STATUS_ALLOC_FAILED : Nat := 3
def CUBLAS_STATUS_INVALID_VALUE : Nat := 7
def CUBLAS_STATUS_ARCH_MISMATCH : Nat := 8
def CUBLAS_STATUS_MAPPING_ERROR : Nat := 11
def CUBLAS_STATUS_EXECUTION_FAILED : Nat := 13
def CUBLAS_STATUS_INTERNAL_ERROR : Nat := 14
def CUBLAS_STATUS_NOT_SUPPORTED : Nat := 15
def CUBLAS_STATUS_LICENSE_ERROR : Nat := 16

/-- The `err` string chosen by the `else if` chain of
`throw_on_error(cublasStatus_t, ...)`; stays `""` when no branch matches. -/
def cublasErrString (stat : Nat) : String :=
  if stat = CUBLAS_STATUS_NOT_INITIALIZED then "CUBLAS: not initialized, "
  else if stat = CUBLAS_STATUS_ALLOC_FAILED then "CUBLAS: alloc failed, "
  else if stat = CUBLAS_STATUS_INVALID_VALUE then "CUBLAS: invalid value, "
  else if stat = CUBLAS_STATUS_ARCH_MISMATCH then "CUBLAS: arch mismatch, "
  else if stat = CUBLAS_STATUS_MAPPING_ERROR then "CUBLAS: mapping error, "
  else if stat = CUBLAS_STATUS_EXECUTION_FAILED then "CUBLAS: execution failed, "
  else if stat = CUBLAS_STATUS_INTERNAL_ERROR then "CUBLAS: internal error, "
  else if stat = CUBLAS_STATUS_NOT_SUPPORTED then "CUBLAS: not supported, "
  else if stat = CUBLAS_STATUS_LICENSE_ERROR then "CUBLAS: license error, "
  else ""

/-- `throw_on_error(cublasStatus_t stat, const Args&... args)`: returns on
`CUBLAS_STATUS_SUCCESS`, otherwise throws
`std::runtime_error(err + Sprintf(args...))`. -/
def throw_on_error_cublas (stat : Nat) (msg : String) : Except CppExc Unit :=
  if stat = CUBLAS_STATUS_SUCCESS then .ok ()
  else .error (.stdExc (cublasErrString stat ++ msg))

/-! ### cuRAND status dispatch (external enum values from `curand.h`) -/

def CURAND_STATUS_SUCCESS : Nat := 0

/-- `cudaErrorLaunchFailure` from the driver enum `cudaError_t`. -/
def cudaErrorLaunchFailure : Nat := 4

/-- `throw_on_error(curandStatus_t stat, const Args&... args)`: returns on
`CURAND_STATUS_SUCCESS`, otherwise throws
`thrust::system_error(cudaErrorLaunchFailure, cuda_category, Sprintf(args...))`
— the same launch-failure code for every failing status. -/
def throw_on_error_curand (stat : Nat) (msg : String) : Except CppExc Unit :=
  if stat ≠ CURAND_STATUS_SUCCESS then
    .error (.systemError cudaErrorLaunchFailure msg)
  else .ok ()

/-! ### Comparison layer: C++ integral types, `CompatibleType`, the
`__PADDLE_BINARY_COMPARE` macro -/

/-- The C++ arithmetic types appearing at comparison call sites. -/
inductive CType where
  | i32 | u32 | i64 | u64
deriving DecidableEq

def CType.bits : CType → Nat
  | .i32 => 32
  | .u32 => 32
  | .i64 => 64
  | .u64 => 64

def CType.signed : CType → Bool
  | .i32 => true
  | .u32 => false
  | .i64 => true
  | .u64 => false

/-- `std::is_convertible<T1, T2>::value` for arithmetic types: every
arithmetic type implicitly converts to every other, so this is `true`. -/
def is_convertible (_t1 _t2 : CType) : Bool := true

/-- `CompatibleType<T1, T2>::type = std::conditional<t1_to_t2, T2, T1>::type`.
-/
def CompatibleType (t1 t2 : CType) : CType :=
  if is_convertible t1 t2 then t2 else t1

/-- C++ integral conversion of value `v` to type `t`: two's-complement
wrap-around (modulo `2 ^ bits`, re-centred for signed targets). -/
def convertVal (t : CType) (v : Int) : Int :=
  if t.signed then (v + 2 ^ (t.bits - 1)) % 2 ^ t.bits - 2 ^ (t.bits - 1)
  else v % 2 ^ t.bits

def CType.minVal (t : CType) : Int :=
  if t.signed then -(2 ^ (t.bits - 1) : Int) else 0

def CType.maxVal (t : CType) : Int :=
  if t.signed then (2 ^ (t.bits - 1) : Int) - 1 else (2 ^ t.bits : Int) - 1

/-- A typed C++ value at a comparison call site. -/
structure CVal where
  ty : CType
  val : Int
deriving DecidableEq

/-- The stored `Int` actually lies in the representable range of the type. -/
def CVal.wf (v : CVal) : Prop :=
  v.ty.minVal ≤ v.val ∧ v.val ≤ v.ty.maxVal

instance (v : CVal) : Decidable v.wf :=
  inferInstanceAs (Decidable (_ ∧ _))

/-- The six comparison kinds of the `PADDLE_ENFORCE_xx` macro family. -/
inductive CmpOp where
  | EQ | NE | GT | GE | LT | LE
deriving DecidableEq

/-- The checked operator's source text (`#__CMP`). -/
def CmpOp.opStr : CmpOp → String
  | .EQ => "=="
  | .NE => "!="
  | .GT => ">"
  | .GE => ">="
  | .LT => "<"
  | .LE => "<="

/-- The inverse operator's source text (`#__INV_CMP`), as hard-coded in each
`PADDLE_ENFORCE_xx` macro. -/
def CmpOp.invStr : CmpOp → String
  | .EQ => "!="
  | .NE => "=="
  | .GT => "<="
  | .GE => "<"
  | .LT => ">="
  | .LE => ">"

/-- The comparison predicate, evaluated on the (already coerced) operands. -/
def CmpOp.eval : CmpOp → Int → Int → Bool
  | .EQ, a, b => decide (a = b)
  | .NE, a, b => decide (a ≠ b)
  | .GT, a, b => decide (b < a)
  | .GE, a, b => decide (b ≤ a)
  | .LT, a, b => decide (a < b)
  | .LE, a, b => decide (a ≤ b)

/-- The logical negation pairing EQ↔NE, GT↔LE, GE↔LT. -/
def CmpOp.inverse : CmpOp → CmpOp
  | .EQ => .NE
  | .NE => .EQ
  | .GT => .LE
  | .LE => .GT
  | .GE => .LT
  | .LT => .GE

/-- The failure message built by `__PADDLE_BINARY_COMPARE`:
`Sprintf("enforce %s " #CMP " %s failed, %s " #INV " %s\n%s", #V0, #V1,
to_string(V0), to_string(V1), Sprintf("" __VA_ARGS__))`.  Note the rendered
values are `std::to_string` of the ORIGINAL operands `__VAL0`, `__VAL1`. -/
def binaryCompareMsg (cmp : CmpOp) (aexpr bexpr : String) (a b : Int)
    (extra : String) : String :=
  "enforce " ++ aexpr ++ " " ++ cmp.opStr ++ " " ++ bexpr ++ " failed, " ++
    toString a ++ " " ++ cmp.invStr ++ " " ++ toString b ++ "\n" ++ extra

/-- `__PADDLE_BINARY_COMPARE(__VAL0, __VAL1, __CMP, __INV_CMP, ...)`: coerces
both operands to `CompatibleType<decltype(V0), decltype(V1)>::type`, compares,
and routes the boolean through `PADDLE_ENFORCE` /
`throw_on_error(int, ...)` with the rendered message.  `aexpr`/`bexpr` are the
operands' source text (`#__VAL0`, `#__VAL1`); `extra` the rendered
`Sprintf("" __VA_ARGS__)`. -/
def PADDLE_BINARY_COMPARE (cmp : CmpOp) (a b : CVal)
    (aexpr bexpr extra f : String) (l : Nat) (stack : List String) :
    Except CppExc Unit :=
  PADDLE_ENFORCE
    (throw_on_error_int
      (if cmp.eval (convertVal (CompatibleType a.ty b.ty) a.val)
          (convertVal (CompatibleType a.ty b.ty) b.val) then 1 else 0)
      (binaryCompareMsg cmp aexpr bexpr a.val b.val extra))
    f l stack

def PADDLE_ENFORCE_EQ (a b : CVal) (aexpr bexpr extra f : String) (l : Nat)
    (stack : List String) : Except CppExc Unit :=
  PADDLE_BINARY_COMPARE .EQ a b aexpr bexpr extra f l stack

def PADDLE_ENFORCE_NE (a b : CVal) (aexpr bexpr extra f : String) (l : Nat)
    (stack : List String) : Except CppExc Unit :=
  PADDLE_BINARY_COMPARE .NE a b aexpr bexpr extra f l stack

def PADDLE_ENFORCE_GT (a b : CVal) (aexpr bexpr extra f : String) (l : Nat)
    (stack : List String) : Except CppExc Unit :=
  PADDLE_BINARY_COMPARE .GT a b aexpr bexpr extra f l stack

def PADDLE_ENFORCE_GE (a b : CVal) (aexpr bexpr extra f : String) (l : Nat)
    (stack : List String) : Except CppExc Unit :=
  PADDLE_BINARY_COMPARE .GE a b aexpr bexpr extra f l stack

def PADDLE_ENFORCE_LT (a b : CVal) (aexpr bexpr extra f : String) (l : Nat)
    (stack : List String) : Except CppExc Unit :=
  PADDLE_BINARY_COMPARE .LT a b aexpr bexpr extra f l stack

def PADDLE_ENFORCE_LE (a b : CVal) (aexpr bexpr extra f : String) (l : Nat)
    (stack : List String) : Except CppExc Unit :=
  PADDLE_BINARY_COMPARE .LE a b aexpr bexpr extra f l stack

/-! ### Helper instances and lemmas -/

instance {ε α : Type} [DecidableEq ε] [DecidableEq α] : DecidableEq (Except ε α) :=
  fun x y =>
    match x, y with
    | .ok a, .ok b =>
      if h : a = b then isTrue (by rw [h]) else isFalse fun hc => h (Except.ok.inj hc)
    | .error e1, .error e2 =>
      if h : e1 = e2 then isTrue (by rw [h]) else isFalse fun hc => h (Except.error.inj hc)
    | .ok _, .error _ => isFalse fun hc => Except.noConfusion hc
    | .error _, .ok _ => isFalse fun hc => Except.noConfusion hc

/-- Integral conversion is the identity on values representable in the target
type. -/
theorem convertVal_of_wf (t : CType) (v : Int) (h : CVal.wf ⟨t, v⟩) :
    convertVal t v = v := by
  rcases h with ⟨h1, h2⟩
  cases t <;>
    simp only [convertVal, CType.signed, CType.bits, CType.minVal, CType.maxVal,
      if_true, if_false] at * <;>
    norm_num at * <;> omega

/-- The negation pairing is semantically the boolean complement of the checked
predicate. -/
theorem cmp_inverse_eval (cmp : CmpOp) (a b : Int) :
    (cmp.inverse).eval a b = !(cmp.eval a b) := by
  cases cmp <;>
    simp only [CmpOp.eval, CmpOp.inverse, ← decide_not, decide_eq_decide] <;>
    omega

/-- The hard-coded inverse-operator text of each macro is the source text of
the paired inverse comparison. -/
theorem invStr_eq_inverse_opStr (cmp : CmpOp) :
    cmp.invStr = (cmp.inverse).opStr := by
  cases cmp <;> rfl

/-! ### Claims -/

/-- Claim C1: `throw_on_error(int stat, args...)` returns normally iff `stat`
is non-zero; when `stat` is zero it raises, and the inner failure message is
exactly the caller-supplied formatted text (possibly empty), with no
additional diagnostic phrase. -/
theorem throw_on_error_int_spec (stat : Int) (msg : String) :
    (throw_on_error_int stat msg = .ok () ↔ stat ≠ 0) ∧
    throw_on_error_int 0 msg = .error (.stdExc msg) := by
  refine ⟨?_, rfl⟩
  unfold throw_on_error_int
  split <;> simp_all

/-- Claim C2: for each comparison kind and same-type operands,
`PADDLE_ENFORCE_xx(a, b, ...)` returns normally iff the comparison predicate
holds; on failure the message has the fixed shape
`"enforce <a-expr> <op> <b-expr> failed, <a-value> <inverse-op> <b-value>\n<extra>"`
where the inverse operator is the logical negation of the checked one under
the pairing EQ↔NE, GT↔LE, GE↔LT (`extra` is the rendered optional format,
`""` when absent). -/
theorem paddle_binary_compare_same_type_spec (cmp : CmpOp) (t : CType)
    (a b : Int) (aexpr bexpr extra f : String) (l : Nat) (stack : List String)
    (ha : CVal.wf ⟨t, a⟩) (hb : CVal.wf ⟨t, b⟩) :
    (PADDLE_BINARY_COMPARE cmp ⟨t, a⟩ ⟨t, b⟩ aexpr bexpr extra f l stack =
        .ok () ↔ cmp.eval a b = true) ∧
    (cmp.eval a b = false →
      PADDLE_BINARY_COMPARE cmp ⟨t, a⟩ ⟨t, b⟩ aexpr bexpr extra f l stack =
        .error (.enforceNotMet (renderErrStr
          ("enforce " ++ aexpr ++ " " ++ cmp.opStr ++ " " ++ bexpr ++
            " failed, " ++ toString a ++ " " ++ (cmp.inverse).opStr ++ " " ++
            toString b ++ "\n" ++ extra)
          f l (backtrace stack TRACE_STACK_LIMIT)))) ∧
    cmp.invStr = (cmp.inverse).opStr ∧
    (cmp.inverse).eval a b = !(cmp.eval a b) := by
  have hca := convertVal_of_wf t a ha
  have hcb := convertVal_of_wf t b hb
  have hmsg : binaryCompareMsg cmp aexpr bexpr a b extra =
      "enforce " ++ aexpr ++ " " ++ cmp.opStr ++ " " ++ bexpr ++ " failed, " ++
        toString a ++ " " ++ (cmp.inverse).opStr ++ " " ++ toString b ++
        "\n" ++ extra := by
    rw [binaryCompareMsg, invStr_eq_inverse_opStr]
  refine ⟨?_, ?_, invStr_eq_inverse_opStr cmp, cmp_inverse_eval cmp a b⟩
  · rcases hc : cmp.eval a b <;>
      simp [PADDLE_BINARY_COMPARE, CompatibleType, is_convertible, hca, hcb,
        hc, throw_on_error_int, PADDLE_ENFORCE, EnforceNotMet.construct,
        CppExc.isStdException, CppExc.what]
  · intro hc
    simp [PADDLE_BINARY_COMPARE, CompatibleType, is_convertible, hca, hcb,
      hc, throw_on_error_int, PADDLE_ENFORCE, EnforceNotMet.construct,
      CppExc.isStdException, CppExc.what, hmsg]

/-- Claim C2 witness: a concrete failing same-type comparison,
`PADDLE_ENFORCE_LT`-style with operands 3 and 2. -/
theorem paddle_binary_compare_same_type_spec_witness :
    PADDLE_BINARY_COMPARE .LT ⟨.i32, 3⟩ ⟨.i32, 2⟩ "x" "y" "" "f.cc" 10 [] =
      .error (.enforceNotMet (renderErrStr
        ("enforce " ++ "x" ++ " " ++ CmpOp.opStr .LT ++ " " ++ "y" ++
          " failed, " ++ toString (3 : Int) ++ " " ++
          (CmpOp.inverse .LT).opStr ++ " " ++ toString (2 : Int) ++
          "\n" ++ "")
        "f.cc" 10 (backtrace [] TRACE_STACK_LIMIT))) :=
  (paddle_binary_compare_same_type_spec .LT .i32 3 2 "x" "y" "" "f.cc" 10 []
    (by decide) (by decide)).2.1 (by decide)

/-- Claim C3: an `EnforceNotMet` built from a propagating `std::exception`
renders its message once, at construction: the inner description, then
`" at [<file>:<line>]"`, then the header line `"Call Stacks: "`, then one line
per captured frame; `backtrace` captures at most 100 frames, a shallower
stack yields proportionally fewer lines without padding, and the frames keep
the stack walker's innermost-first order. -/
theorem enforce_not_met_render_spec (w f : String) (l : Nat)
    (stack : List String) :
    ∃ en : EnforceNotMet,
      EnforceNotMet.construct (.stdExc w) f l stack = .ok en ∧
      en.what = w ++ " at [" ++ f ++ ":" ++ toString l ++ "]\n" ++
        "Call Stacks: \n" ++
        String.join ((backtrace stack TRACE_STACK_LIMIT).map
          (fun s => s ++ "\n")) ∧
      (backtrace stack TRACE_STACK_LIMIT).length = min 100 stack.length ∧
      ∀ i : Nat, (backtrace stack TRACE_STACK_LIMIT)[i]? =
        if i < 100 then stack[i]? else none := by
  refine ⟨_, rfl, rfl, ?_, ?_⟩
  · simp [backtrace, TRACE_STACK_LIMIT, List.length_take]
  · intro i
    simp [backtrace, TRACE_STACK_LIMIT, List.getElem?_take]

/-- Claim C4: `throw_on_error(cublasStatus_t, ...)` returns normally iff the
status is `CUBLAS_STATUS_SUCCESS`; otherwise it raises with a diagnostic
prefix selected by exact code match from exactly ten fixed alternatives (nine
named phrases and the empty string for unrecognized codes), concatenated with
the caller-supplied formatted text. -/
theorem throw_on_error_cublas_spec (stat : Nat) (msg : String) :
    (throw_on_error_cublas stat msg = .ok () ↔ stat = CUBLAS_STATUS_SUCCESS) ∧
    (stat ≠ CUBLAS_STATUS_SUCCESS →
      throw_on_error_cublas stat msg =
        .error (.stdExc (cublasErrString stat ++ msg))) ∧
    cublasErrString stat ∈
      ["CUBLAS: not initialized, ", "CUBLAS: alloc failed, ",
       "CUBLAS: invalid value, ", "CUBLAS: arch mismatch, ",
       "CUBLAS: mapping error, ", "CUBLAS: execution failed, ",
       "CUBLAS: internal error, ", "CUBLAS: not supported, ",
       "CUBLAS: license error, ", ""] ∧
    cublasErrString CUBLAS_STATUS_NOT_INITIALIZED = "CUBLAS: not initialized, " ∧
    cublasErrString CUBLAS_STATUS_ALLOC_FAILED = "CUBLAS: alloc failed, " ∧
    cublasErrString CUBLAS_STATUS_INVALID_VALUE = "CUBLAS: invalid value, " ∧
    cublasErrString CUBLAS_STATUS_ARCH_MISMATCH = "CUBLAS: arch mismatch, " ∧
    cublasErrString CUBLAS_STATUS_MAPPING_ERROR = "CUBLAS: mapping error, " ∧
    cublasErrString CUBLAS_STATUS_EXECUTION_FAILED = "CUBLAS: execution failed, " ∧
    cublasErrString CUBLAS_STATUS_INTERNAL_ERROR = "CUBLAS: internal error, " ∧
    cublasErrString CUBLAS_STATUS_NOT_SUPPORTED = "CUBLAS: not supported, " ∧
    cublasErrString CUBLAS_STATUS_LICENSE_ERROR = "CUBLAS: license error, " ∧
    (stat ∉ ([1, 3, 7, 8, 11, 13, 14, 15, 16] : List Nat) →
      cublasErrString stat = "") := by
  refine ⟨?_, ?_, ?_, rfl, rfl, rfl, rfl, rfl, rfl, rfl, rfl, rfl, ?_⟩
  · unfold throw_on_error_cublas
    split <;> simp_all
  · intro h
    unfold throw_on_error_cublas
    split
    · exact absurd (by assumption) h
    · rfl
  · unfold cublasErrString
    split_ifs <;> simp
  · intro h
    simp only [List.mem_cons, List.not_mem_nil, or_false, not_or] at h
    unfold cublasErrString
    split_ifs with h1 h2 h3 h4 h5 h6 h7 h8 h9 <;>
      simp_all [CUBLAS_STATUS_NOT_INITIALIZED, CUBLAS_STATUS_ALLOC_FAILED,
        CUBLAS_STATUS_INVALID_VALUE, CUBLAS_STATUS_ARCH_MISMATCH,
        CUBLAS_STATUS_MAPPING_ERROR, CUBLAS_STATUS_EXECUTION_FAILED,
        CUBLAS_STATUS_INTERNAL_ERROR, CUBLAS_STATUS_NOT_SUPPORTED,
        CUBLAS_STATUS_LICENSE_ERROR]

/-- Claim C4 witness: an unrecognized failing status (2) raises with the empty
diagnostic prefix. -/
theorem throw_on_error_cublas_spec_witness :
    throw_on_error_cublas 2 "m" = .error (.stdExc (cublasErrString 2 ++ "m")) :=
  (throw_on_error_cublas_spec 2 "m").2.1 (by decide)

/-- Claim C5 counterexample: the claim says a narrower operand is widened so
no comparison spuriously passes by truncation.  In fact `CompatibleType`
always selects `b`'s type (arithmetic types are mutually convertible): with
`a = 4294967296` of 64-bit signed type and `b = 0` of 32-bit signed type, `a`
is truncated to `0` and `PADDLE_ENFORCE_EQ` passes although `a ≠ b`. -/
theorem compatible_type_truncation_cex :
    PADDLE_BINARY_COMPARE .EQ ⟨.i64, 4294967296⟩ ⟨.i32, 0⟩ "a" "b" ""
      "f.cc" 1 [] = .ok () ∧
    (4294967296 : Int) ≠ 0 ∧
    CType.bits .i32 < CType.bits .i64 ∧
    convertVal (CompatibleType .i64 .i32) 4294967296 = 0 := by
  refine ⟨by decide, by decide, by decide, by decide⟩

/-- Claim C5 (amended): both operands are coerced to `b`'s type — `a`'s type
is always convertible to it for these arithmetic types — and the comparison
is decided on the values converted to that type, even when `b`'s type is
narrower, so truncation/wrap-around of the coerced operand (not widening) is
what the comparison sees. -/
theorem compatible_type_coercion_spec (cmp : CmpOp) (a b : CVal)
    (aexpr bexpr extra f : String) (l : Nat) (stack : List String) :
    CompatibleType a.ty b.ty = b.ty ∧
    (PADDLE_BINARY_COMPARE cmp a b aexpr bexpr extra f l stack = .ok () ↔
      cmp.eval (convertVal b.ty a.val) (convertVal b.ty b.val) = true) := by
  have hT : CompatibleType a.ty b.ty = b.ty := rfl
  refine ⟨hT, ?_⟩
  rcases hc : cmp.eval (convertVal b.ty a.val) (convertVal b.ty b.val) <;>
    simp [PADDLE_BINARY_COMPARE, hT, hc, throw_on_error_int, PADDLE_ENFORCE,
      EnforceNotMet.construct, CppExc.isStdException]

/-- Claim C6 counterexample: constructing `EnforceNotMet` from an inner
exception that does not derive from `std::exception` does raise — the rethrown
inner exception escapes the constructor (its only handler is
`catch (const std::exception&)`), with no fallback description. -/
theorem enforce_not_met_nonstd_cex :
    EnforceNotMet.construct (.nonStd 42) "f.cc" 1 [] = .error (.nonStd 42) ∧
    (CppExc.nonStd 42).isStdException = false := by
  refine ⟨by decide, by decide⟩

/-- Claim C6 (amended): the `EnforceNotMet` constructor completes without
raising exactly when the inner exception derives from `std::exception` (the
description then being that exception's `what()`); for any other inner
exception the rethrown exception escapes the constructor. -/
theorem enforce_not_met_construct_spec (e : CppExc) (f : String) (l : Nat)
    (stack : List String) :
    ((∃ en, EnforceNotMet.construct e f l stack = .ok en) ↔
      e.isStdException = true) ∧
    (EnforceNotMet.construct e f l stack = .error e ∨
      EnforceNotMet.construct e f l stack =
        .ok ⟨renderErrStr e.what f l (backtrace stack TRACE_STACK_LIMIT)⟩) := by
  unfold EnforceNotMet.construct
  rcases h : e.isStdException <;> simp [h]

/-- Claim C7 counterexample: the failure message renders the ORIGINAL operand
values, not the coerced ones.  Comparing `-1` (32-bit signed) with `2`
(32-bit unsigned): the compared value of `a` is `4294967295` after coercion
to the unsigned compatible type, yet the message prints `-1`. -/
theorem binary_compare_rendering_cex :
    PADDLE_BINARY_COMPARE .LT ⟨.i32, -1⟩ ⟨.u32, 2⟩ "x" "y" "" "f.cc" 1 [] =
      .error (.enforceNotMet (renderErrStr "enforce x < y failed, -1 >= 2\n"
        "f.cc" 1 [])) ∧
    convertVal (CompatibleType .i32 .u32) (-1) = 4294967295 ∧
    toString (convertVal (CompatibleType .i32 .u32) (-1)) ≠ "-1" := by
  refine ⟨by decide, by decide, by decide⟩

/-- Claim C7 (amended): in the failure message, `<a-expr>`/`<b-expr>` are the
operands' literal source text, and `<a-value>`/`<b-value>` are the string
renderings of the operands' ORIGINAL values (`std::to_string(__VAL0)`,
`std::to_string(__VAL1)`), before coercion to the compatible type, so the
printed values can differ from the values actually compared. -/
theorem binary_compare_failure_message_spec (cmp : CmpOp) (a b : CVal)
    (aexpr bexpr extra f : String) (l : Nat) (stack : List String)
    (h : cmp.eval (convertVal (CompatibleType a.ty b.ty) a.val)
      (convertVal (CompatibleType a.ty b.ty) b.val) = false) :
    PADDLE_BINARY_COMPARE cmp a b aexpr bexpr extra f l stack =
      .error (.enforceNotMet (renderErrStr
        ("enforce " ++ aexpr ++ " " ++ cmp.opStr ++ " " ++ bexpr ++
          " failed, " ++ toString a.val ++ " " ++ cmp.invStr ++ " " ++
          toString b.val ++ "\n" ++ extra)
        f l (backtrace stack TRACE_STACK_LIMIT))) := by
  simp [PADDLE_BINARY_COMPARE, h, throw_on_error_int, PADDLE_ENFORCE,
    EnforceNotMet.construct, CppExc.isStdException, CppExc.what,
    binaryCompareMsg]

/-- Claim C7 witness: the amended message law applied to the concrete
mixed-type comparison `-1 < 2u`. -/
theorem binary_compare_failure_message_spec_witness :
    PADDLE_BINARY_COMPARE .NE ⟨.i32, -1⟩ ⟨.u32, 4294967295⟩ "u" "v" "e"
      "g.cc" 2 ["fr"] =
      .error (.enforceNotMet (renderErrStr
        ("enforce " ++ "u" ++ " " ++ CmpOp.opStr .NE ++ " " ++ "v" ++
          " failed, " ++ toString (-1 : Int) ++ " " ++ CmpOp.invStr .NE ++
          " " ++ toString (4294967295 : Int) ++ "\n" ++ "e")
        "g.cc" 2 (backtrace ["fr"] TRACE_STACK_LIMIT))) :=
  binary_compare_failure_message_spec .NE ⟨.i32, -1⟩ ⟨.u32, 4294967295⟩
    "u" "v" "e" "g.cc" 2 ["fr"] (by decide)

/-- Claim C8 counterexample: `PADDLE_ENFORCE_GT(5, 3, "ctx %d", 1)` does NOT
raise — `5 > 3` holds, so the enforcement returns normally. -/
theorem enforce_gt_five_three_cex :
    PADDLE_ENFORCE_GT ⟨.i32, 5⟩ ⟨.i32, 3⟩ "5" "3" "ctx 1" "f.cc" 1 [] =
      .ok () := by
  decide

/-- Claim C8 (amended): `PADDLE_ENFORCE_GT(5, 3, "ctx %d", 1)` returns
normally since `5 > 3` holds; the corresponding failing call
`PADDLE_ENFORCE_GT(3, 5, "ctx %d", 1)` raises with a message containing
`"enforce 3 > 5 failed, 3 <= 5"` followed by the rendered extra text
`"ctx 1"`. -/
theorem enforce_gt_example_spec :
    PADDLE_ENFORCE_GT ⟨.i32, 5⟩ ⟨.i32, 3⟩ "5" "3" "ctx 1" "f.cc" 1 [] =
      .ok () ∧
    PADDLE_ENFORCE_GT ⟨.i32, 3⟩ ⟨.i32, 5⟩ "3" "5" "ctx 1" "f.cc" 1 [] =
      .error (.enforceNotMet (renderErrStr
        ("enforce 3 > 5 failed, 3 <= 5" ++ "\n" ++ "ctx 1") "f.cc" 1 [])) := by
  refine ⟨by decide, by decide⟩

/-- Claim C9: `throw_on_error(curandStatus_t, ...)` returns normally iff the
status is `CURAND_STATUS_SUCCESS`; every failing status raises the same
generic kernel-launch failure (`cudaErrorLaunchFailure`) carrying only the
caller-supplied formatted text, with no status-specific diagnostic. -/
theorem throw_on_error_curand_spec (stat : Nat) (msg : String) :
    (throw_on_error_curand stat msg = .ok () ↔ stat = CURAND_STATUS_SUCCESS) ∧
    (stat ≠ CURAND_STATUS_SUCCESS →
      throw_on_error_curand stat msg =
        .error (.systemError cudaErrorLaunchFailure msg)) ∧
    (∀ s1 s2 : Nat, s1 ≠ CURAND_STATUS_SUCCESS → s2 ≠ CURAND_STATUS_SUCCESS →
      throw_on_error_curand s1 msg = throw_on_error_curand s2 msg) := by
  refine ⟨?_, ?_, ?_⟩
  · unfold throw_on_error_curand
    split <;> simp_all
  · intro h
    unfold throw_on_error_curand
    split
    · rfl
    · simp_all
  · intro s1 s2 h1 h2
    unfold throw_on_error_curand
    rw [if_pos h1, if_pos h2]

/-- Claim C9 witness: the concrete failing status 5 raises the generic
launch-failure error with the caller text. -/
theorem throw_on_error_curand_spec_witness :
    throw_on_error_curand 5 "oops" =
      .error (.systemError cudaErrorLaunchFailure "oops") :=
  (throw_on_error_curand_spec 5 "oops").2.1 (by decide)

/-- Claim C10 counterexample: an exception NOT derived from `std::exception`
thrown while a `PADDLE_ENFORCE` site evaluates (modelled by the site body
resulting in `nonStd 7`) is caught by the site's `catch (...)`, but the
`EnforceNotMet` constructor rethrows it and it escapes unwrapped — the
escaping exception is not an `EnforceNotMet`. -/
theorem paddle_enforce_escape_cex :
    PADDLE_ENFORCE (.error (.nonStd 7)) "f.cc" 1 [] = .error (.nonStd 7) ∧
    (CppExc.nonStd 7).isEnforceNotMet = false := by
  refine ⟨by decide, by decide⟩

/-- Claim C10 (amended): an exception thrown at a `PADDLE_ENFORCE` site is
caught by the enclosing `catch (...)` and rethrown wrapped as an
`EnforceNotMet` carrying the site's file and line — provided it derives from
`std::exception`; an exception of any other type escapes the site unwrapped,
because the `EnforceNotMet` constructor rethrows it with no matching
handler. -/
theorem paddle_enforce_wrap_spec (body : Except CppExc Unit) (f : String)
    (l : Nat) (stack : List String) :
    (body = .ok () → PADDLE_ENFORCE body f l stack = .ok ()) ∧
    (∀ e : CppExc, body = .error e → e.isStdException = true →
      PADDLE_ENFORCE body f l stack =
        .error (.enforceNotMet
          (renderErrStr e.what f l (backtrace stack TRACE_STACK_LIMIT)))) ∧
    (∀ e : CppExc, body = .error e → e.isStdException = false →
      PADDLE_ENFORCE body f l stack = .error e) := by
  refine ⟨?_, ?_, ?_⟩
  · intro h
    rw [h]
    rfl
  · intro e hbody he
    rw [hbody]
    simp [PADDLE_ENFORCE, EnforceNotMet.construct, he]
  · intro e hbody he
    rw [hbody]
    simp [PADDLE_ENFORCE, EnforceNotMet.construct, he]

/-- Claim C10 witness: a std-derived exception with description `"boom"` is
wrapped as an `EnforceNotMet` carrying the site location. -/
theorem paddle_enforce_wrap_spec_witness :
    PADDLE_ENFORCE (.error (.stdExc "boom")) "f.cc" 2 [] =
      .error (.enforceNotMet (renderErrStr (CppExc.what (.stdExc "boom"))
        "f.cc" 2 (backtrace [] TRACE_STACK_LIMIT))) :=
  (paddle_enforce_wrap_spec (.error (.stdExc "boom")) "f.cc" 2 []).2.1
    (.stdExc "boom") rfl rfl

end Paddle
